import Mathlib

/-!
Verification of the JSON-RPC 2.0 dispatch engine (sjinks/jsonrpc-cpp).

This file gives a shallow embedding of the request-processing core of the
library and proves the specified properties about it.  The embedding follows
the sources:

* `src/utils.cpp`           -- `is_valid_request_id`, `get_request_id`,
                               `is_error_response`, `get_error_code`,
                               `get_error_message`, `generate_error_response`
* `src/exception.h`         -- error codes and error-message constants,
                               `exception::to_json`
* `src/request.cpp`         -- the ADL `from_json` deserializer and the
                               validating constructor `jsonrpc_request::from_json`
* `src/dispatcher_p.cpp`    -- `parse_request`, `validate_request`, `invoke`,
                               `process_request`, `process_batch_request`
* `src/dispatcher.h`        -- `create_closure` (parameter binding)

JSON values are modelled by an inductive `Json` type mirroring
`nlohmann::json`: null, boolean, number, string, array, object, and the
distinguished `discarded` state.  Numbers are modelled by `Int` (no claim
here depends on non-integral numbers).  Objects are association lists in
insertion order; the dispatcher only ever inspects objects through key
lookup, so the member order is irrelevant to the proved statements.
Exception texts produced by the external JSON library are modelled as plain
strings without quote characters; no proved statement depends on them.

Method handlers are modelled as functions from the context (`extra`) value
and the params value to an outcome that is either a result, a thrown typed
`json_rpc::exception`, or a thrown native `std::exception` carrying its
`what()` text.  The method registry is a function from method names to
optional handlers, mirroring `unordered_map::find`.
-/

namespace JsonRpc

/-- JSON values, mirroring `nlohmann::json` including the `discarded` state. -/
inductive Json where
  | null : Json
  | bool (b : Bool) : Json
  | num (n : Int) : Json
  | str (s : String) : Json
  | arr (items : List Json) : Json
  | obj (fields : List (String × Json)) : Json
  | discarded : Json

/-- Key lookup in an object member list (first match wins). -/
def lookupMember : List (String × Json) → String → Option Json
  | [], _ => none
  | (k, v) :: rest, key => if k = key then some v else lookupMember rest key

/-- `j[key]` style member access: `some` value for objects that have the key. -/
def Json.member : Json → String → Option Json
  | .obj ms, key => lookupMember ms key
  | _, _ => none

/-- `j.contains(key)` of `nlohmann::json`: true only for objects having the key. -/
def Json.hasKey (j : Json) (key : String) : Bool := (j.member key).isSome

/-- `nlohmann::json::type_name()`. -/
def Json.typeName : Json → String
  | .null => "null"
  | .bool _ => "boolean"
  | .num _ => "number"
  | .str _ => "string"
  | .arr _ => "array"
  | .obj _ => "object"
  | .discarded => "discarded"

/-- `j.is_string()`. -/
def Json.isStr : Json → Bool
  | .str _ => true
  | _ => false

/-- `j.is_number()`. -/
def Json.isNum : Json → Bool
  | .num _ => true
  | _ => false

/-- `j.is_null()`. -/
def Json.isNull : Json → Bool
  | .null => true
  | _ => false

/-- `j.is_discarded()`. -/
def Json.isDiscarded : Json → Bool
  | .discarded => true
  | _ => false

/-- `j.is_array()`. -/
def Json.isArr : Json → Bool
  | .arr _ => true
  | _ => false

/-- `j.is_object()`. -/
def Json.isObj : Json → Bool
  | .obj _ => true
  | _ => false

/-- `j.empty()` of `nlohmann::json` (empty container, or null). -/
def Json.isEmptyColl : Json → Bool
  | .null => true
  | .arr elems => elems.isEmpty
  | .obj ms => ms.isEmpty
  | _ => false

/-- Remove a key from an object member list. -/
def eraseMember : List (String × Json) → String → List (String × Json)
  | [], _ => []
  | (k, v) :: rest, key =>
      if k = key then eraseMember rest key else (k, v) :: eraseMember rest key

/-- `j.erase(key)` on objects; identity elsewhere (the code only erases on objects). -/
def Json.eraseKey : Json → String → Json
  | .obj ms, key => .obj (eraseMember ms key)
  | j, _ => j

/-- Replace-or-append assignment used for `extra_data["extra"] = extra_fields`. -/
def setMember : List (String × Json) → String → Json → List (String × Json)
  | [], key, v => [(key, v)]
  | (k, w) :: rest, key, v =>
      if k = key then (k, v) :: rest else (k, w) :: setMember rest key v

/-- `j[key] = v` on objects; identity elsewhere (the code only assigns on objects). -/
def Json.setKey : Json → String → Json → Json
  | .obj ms, key, v => .obj (setMember ms key v)
  | j, _, _ => j

/-- Error code `PARSE_ERROR` from `exception.h`. -/
def PARSE_ERROR : Int := -32700
/-- Error code `INVALID_REQUEST` from `exception.h`. -/
def INVALID_REQUEST : Int := -32600
/-- Error code `METHOD_NOT_FOUND` from `exception.h`. -/
def METHOD_NOT_FOUND : Int := -32601
/-- Error code `INVALID_PARAMS` from `exception.h`. -/
def INVALID_PARAMS : Int := -32602
/-- Error code `INTERNAL_ERROR` from `exception.h`. -/
def INTERNAL_ERROR : Int := -32603

/-- Message constant `err_not_jsonrpc_2_0_request` from `exception.h`. -/
def err_not_jsonrpc_2_0_request : String := "Not a JSON-RPC 2.0 request"
/-- Message constant `err_invalid_params_passed_to_method` from `exception.h`. -/
def err_invalid_params_passed_to_method : String := "Invalid parameters passed to method"
/-- Message constant `err_method_not_found` from `exception.h`. -/
def err_method_not_found : String := "Method not found"
/-- Message constant `err_empty_method` from `exception.h`. -/
def err_empty_method : String := "Method cannot be empty"
/-- Message constant `err_bad_params_type` from `exception.h`. -/
def err_bad_params_type : String := "Parameters must be either an array or an object or omitted"
/-- Message constant `err_bad_id_type` from `exception.h`. -/
def err_bad_id_type : String := "ID must be either a number, a string, or null"
/-- Message constant `err_empty_batch` from `exception.h`. -/
def err_empty_batch : String := "Empty batch request"

/-- The typed `json_rpc::exception`: error code, message, optional data. -/
structure RpcException where
  code : Int
  message : String
  data : Json := Json.null

/-- `exception::to_json()`: an error object with `data` only when not null. -/
def RpcException.to_json (e : RpcException) : Json :=
  if e.data.isNull then
    Json.obj [("code", Json.num e.code), ("message", Json.str e.message)]
  else
    Json.obj [("code", Json.num e.code), ("message", Json.str e.message), ("data", e.data)]

/-- `generate_error_response` from `utils.cpp` / `dispatcher_p.cpp`. -/
def generate_error_response (e : RpcException) (id : Json) : Json :=
  Json.obj [("jsonrpc", Json.str "2.0"), ("error", e.to_json), ("id", id)]

/-- `is_valid_request_id` from `utils.cpp`: string, number, null, or discarded. -/
def is_valid_request_id (id : Json) : Bool :=
  id.isStr || id.isNum || id.isNull || id.isDiscarded

/-- `request.contains(key) ? request[key] : default`. -/
def memberD (j : Json) (key : String) (d : Json) : Json :=
  match j.member key with
  | some v => v
  | none => d

/-- `get_request_id` from `utils.cpp`. -/
def get_request_id (request : Json) : Json :=
  let id := memberD request "id" Json.null
  if is_valid_request_id id then id else Json.null

/-- `is_error_response` from `utils.cpp`. -/
def is_error_response (response : Json) : Bool :=
  response.isObj && response.hasKey "error" &&
    (match response.member "error" with
     | some e => e.isObj
     | none => false)

/-- `get_error_code` from `utils.cpp`: `response.at("error").value("code", 0)`. -/
def get_error_code (response : Json) : Int :=
  match response.member "error" with
  | some e =>
    (match e.member "code" with
     | some (Json.num c) => c
     | _ => 0)
  | none => 0

/-- `get_error_message` from `utils.cpp`: `response.at("error").value("message", "")`. -/
def get_error_message (response : Json) : String :=
  match response.member "error" with
  | some e =>
    (match e.member "message" with
     | some (Json.str s) => s
     | _ => "")
  | none => ""

/-- The `jsonrpc_request` structure (`request.h`); `extra` holds the request
members outside the four reserved keys. -/
structure jsonrpc_request where
  jsonrpc : String
  method : String
  params : Json
  id : Json
  extra : Json := Json.null

/-- `j.at(key)`: the member, or the JSON-library exception text. -/
def Json.atKey (j : Json) (key : String) : Except String Json :=
  match j with
  | .obj ms =>
    (match lookupMember ms key with
     | some v => .ok v
     | none => .error ("[json.exception.out_of_range.403] key " ++ key ++ " not found"))
  | _ => .error ("[json.exception.type_error.305] cannot use at() with " ++ j.typeName)

/-- `j.at(key).get_to(s)` for a string target: the string, or the
JSON-library exception text. -/
def getStrField (j : Json) (key : String) : Except String String :=
  match j.atKey key with
  | .error e => .error e
  | .ok (Json.str s) => .ok s
  | .ok v => .error ("[json.exception.type_error.302] type must be string, but is " ++ v.typeName)

/-- The `params` normalization of the ADL `from_json` (`request.cpp` /
`dispatcher_p.cpp`): an absent (discarded) `params` becomes an empty array and
an object is wrapped in a one-element array; anything else is kept verbatim.
The ADL deserializer extracts `jsonrpc` and `method` (strings, required),
copies `params` and `id` if present (else leaves them discarded), then applies
this normalization to `params`. -/
def normalize_params (p : Json) : Json :=
  if p.isDiscarded then Json.arr []
  else match p with
    | Json.obj ms => Json.arr [Json.obj ms]
    | q => q

/-- The ADL `from_json(j, r)` body. -/
def from_json (j : Json) : Except String jsonrpc_request :=
  match getStrField j "jsonrpc" with
  | .error e => .error e
  | .ok ver =>
    match getStrField j "method" with
    | .error e => .error e
    | .ok m =>
      .ok { jsonrpc := ver, method := m,
            params := normalize_params (memberD j "params" Json.discarded),
            id := memberD j "id" Json.discarded }

/-- The extra fields of a request: the request with the four reserved keys erased. -/
def request_extra_fields (request : Json) : Json :=
  (((request.eraseKey "jsonrpc").eraseKey "method").eraseKey "params").eraseKey "id"

/-- `dispatcher_private::parse_request`: deserialize, wrapping any JSON-library
failure as `INVALID_REQUEST` with the failure text, and capture the extra fields. -/
def parse_request (request : Json) : Except RpcException jsonrpc_request :=
  match from_json request with
  | .error w => .error { code := INVALID_REQUEST, message := w }
  | .ok req => .ok { req with extra := request_extra_fields request }

/-- `dispatcher_private::validate_request`: the four checks in source order. -/
def validate_request (r : jsonrpc_request) : Except RpcException Unit :=
  if r.jsonrpc ≠ "2.0" then
    .error { code := INVALID_REQUEST, message := err_not_jsonrpc_2_0_request }
  else if r.params.isArr = false then
    .error { code := INVALID_PARAMS, message := err_bad_params_type }
  else if r.method = "" then
    .error { code := INVALID_REQUEST, message := err_empty_method }
  else if is_valid_request_id r.id = false then
    .error { code := INVALID_REQUEST, message := err_bad_id_type }
  else
    .ok ()

/-- `jsonrpc_request::from_json` (`request.cpp`): deserialize, run the same four
validation checks, then attach the extra fields. -/
def jsonrpc_request.from_json (request : Json) : Except RpcException jsonrpc_request :=
  match JsonRpc.from_json request with
  | .error w => .error { code := INVALID_REQUEST, message := w }
  | .ok req =>
    if req.jsonrpc ≠ "2.0" then
      .error { code := INVALID_REQUEST, message := err_not_jsonrpc_2_0_request }
    else if req.params.isArr = false then
      .error { code := INVALID_PARAMS, message := err_bad_params_type }
    else if req.method = "" then
      .error { code := INVALID_REQUEST, message := err_empty_method }
    else if is_valid_request_id req.id = false then
      .error { code := INVALID_REQUEST, message := err_bad_id_type }
    else
      .ok { req with extra := request_extra_fields request }

/-- The outcome of running a handler body: a result, a thrown typed
`json_rpc::exception`, or a thrown native `std::exception` with its
`what()` text. -/
inductive HandlerOutcome where
  | ok (result : Json) : HandlerOutcome
  | rpcFailure (e : RpcException) : HandlerOutcome
  | nativeFailure (what : String) : HandlerOutcome

/-- `dispatcher::handler_t`: a function of the `extra` value and the `params` value. -/
def HandlerFun := Json → Json → HandlerOutcome

/-- The method registry `m_methods`, viewed through `find`. -/
def Registry := String → Option HandlerFun

/-- A failure escaping `invoke`: a typed `json_rpc::exception` or any other
`std::exception`. -/
inductive InvokeFailure where
  | rpc (e : RpcException) : InvokeFailure
  | native (what : String) : InvokeFailure

/-- `dispatcher_private::invoke`: look the method up, run the handler, or
throw `METHOD_NOT_FOUND`. -/
def invoke (reg : Registry) (method : String) (params extra : Json) :
    Except InvokeFailure Json :=
  match reg method with
  | some h =>
    (match h extra params with
     | .ok r => .ok r
     | .rpcFailure e => .error (.rpc e)
     | .nativeFailure w => .error (.native w))
  | none => .error (.rpc { code := METHOD_NOT_FOUND, message := err_method_not_found })

/-- The `extra_data` passed to handlers: when the host data is an object and
the request has extra fields, they are attached under the key `extra`. -/
def make_extra_data (extra extra_fields : Json) : Json :=
  if extra.isObj && !extra_fields.isEmptyColl then extra.setKey "extra" extra_fields
  else extra

/-- The single-request path of `dispatcher_private::process_request`
(the non-array branch): capture the raw request id (normalized to null when
absent or of invalid shape), then parse, validate, and invoke, producing a
result response, an error response, or the discarded value for notifications. -/
def process_single (reg : Registry) (request extra : Json) : Json :=
  let rid := get_request_id request
  match parse_request request with
  | .error e =>
    if rid.isDiscarded then Json.discarded else generate_error_response e rid
  | .ok req =>
    match validate_request req with
    | .error e =>
      if rid.isDiscarded then Json.discarded else generate_error_response e rid
    | .ok _ =>
      let extra_data := make_extra_data extra req.extra
      match invoke reg req.method req.params extra_data with
      | .ok res =>
        if req.id.isDiscarded = false then
          Json.obj [("jsonrpc", Json.str "2.0"), ("result", res), ("id", req.id)]
        else Json.discarded
      | .error (.rpc e) =>
        if req.id.isDiscarded then Json.discarded
        else generate_error_response e req.id
      | .error (.native w) =>
        if req.id.isDiscarded then Json.discarded
        else generate_error_response { code := INTERNAL_ERROR, message := w } req.id

/-- One iteration of the loop in `dispatcher_private::process_batch_request`:
a non-object element yields an `INVALID_REQUEST` error response with null id;
an object element goes through the single-request path. -/
def batch_element_response (reg : Registry) (extra req : Json) : Json :=
  if req.isObj = false then
    generate_error_response
      { code := INVALID_REQUEST, message := err_not_jsonrpc_2_0_request } Json.null
  else process_single reg req extra

/-- The loop of `dispatcher_private::process_batch_request`: push the error
response for each non-object element, and the single-request response for each
object element unless it is discarded. -/
def process_batch_items (reg : Registry) (extra : Json) : List Json → List Json
  | [] => []
  | req :: rest =>
    if req.isObj = false then
      generate_error_response
          { code := INVALID_REQUEST, message := err_not_jsonrpc_2_0_request } Json.null
        :: process_batch_items reg extra rest
    else
      let res := process_single reg req extra
      if res.isDiscarded then process_batch_items reg extra rest
      else res :: process_batch_items reg extra rest

/-- `dispatcher_private::process_batch_request`: an empty batch yields a single
`INVALID_REQUEST` error response with null id; otherwise the loop runs and an
empty collected response list collapses to the discarded value. -/
def process_batch_request (reg : Registry) (elems : List Json) (extra : Json) : Json :=
  if elems.isEmpty then
    generate_error_response { code := INVALID_REQUEST, message := err_empty_batch } Json.null
  else
    let response := process_batch_items reg extra elems
    if response.isEmpty then Json.discarded else Json.arr response

/-- `dispatcher_private::process_request`: arrays take the batch path,
everything else the single-request path. -/
def process_request (reg : Registry) (request extra : Json) : Json :=
  match request with
  | Json.arr elems => process_batch_request reg elems extra
  | _ => process_single reg request extra

/-- The binding decision of the closure built by `dispatcher::create_closure`
(`dispatcher.h`): either the whole params array is passed through as the one
JSON argument, or the elements are bound positionally, or the arity check
fails with `INVALID_PARAMS`. -/
inductive BindOutcome where
  | passthrough (arg : Json) : BindOutcome
  | positional (args : List Json) : BindOutcome
  | bindError (e : RpcException) : BindOutcome

/-- `dispatcher::create_closure`: `hasExtra` tells whether the handler declares
a leading context parameter (`Extra` non-void, so `arg_pos` is 1), `argsSize`
is the total declared argument count (`std::tuple_size` of the args tuple),
and `argAtPosIsJson` tells whether the argument at `arg_pos` is declared as
`nlohmann::json`.  `params` holds the elements of the (already normalized)
params array.  `arg_pos` is `std::is_void_v<Extra> ? 0 : 1`. -/
def arg_pos (hasExtra : Bool) : Nat := if hasExtra then 1 else 0

/-- `dispatcher::create_closure` continued: the run-time behaviour of the
built closure on a params array. -/
def create_closure (hasExtra : Bool) (argsSize : Nat) (argAtPosIsJson : Bool)
    (params : List Json) : BindOutcome :=
  let argPos : Nat := arg_pos hasExtra
  if argsSize == argPos + 1 && argAtPosIsJson then
    BindOutcome.passthrough (Json.arr params)
  else if params.length + argPos == argsSize then
    BindOutcome.positional params
  else
    BindOutcome.bindError { code := INVALID_PARAMS, message := err_invalid_params_passed_to_method }

/-! ### Helper lemmas -/

lemma isObj_not_isArr {j : Json} (h : j.isObj = true) : j.isArr = false := by
  cases j <;> simp_all [Json.isObj, Json.isArr]

lemma generate_error_response_ne_discarded (e : RpcException) (id : Json) :
    generate_error_response e id ≠ Json.discarded := by
  intro h
  exact Json.noConfusion h

lemma hasKey_false_member {j : Json} {k : String} (h : j.hasKey k = false) :
    j.member k = none := by
  unfold Json.hasKey at h
  cases hm : j.member k <;> simp_all

lemma get_request_id_of_member_none {request : Json} (h : request.member "id" = none) :
    get_request_id request = Json.null := by
  simp [get_request_id, memberD, h]

lemma get_request_id_of_invalid {request v : Json} (hm : request.member "id" = some v)
    (hv : is_valid_request_id v = false) : get_request_id request = Json.null := by
  simp [get_request_id, memberD, hm, hv]

lemma get_request_id_of_valid {request v : Json} (hm : request.member "id" = some v)
    (hv : is_valid_request_id v = true) : get_request_id request = v := by
  simp [get_request_id, memberD, hm, hv]

lemma getStrField_ok_isObj {j : Json} {k s : String}
    (h : getStrField j k = .ok s) : j.isObj = true := by
  unfold getStrField Json.atKey at h
  cases j <;> simp_all [Json.isObj]

lemma from_json_ok {j : Json} {r : jsonrpc_request} (h : from_json j = .ok r) :
    ∃ ver m, getStrField j "jsonrpc" = .ok ver ∧ getStrField j "method" = .ok m ∧
      r = { jsonrpc := ver, method := m,
            params := normalize_params (memberD j "params" Json.discarded),
            id := memberD j "id" Json.discarded } := by
  unfold from_json at h
  split at h
  · exact Except.noConfusion h
  next ver hver =>
    split at h
    · exact Except.noConfusion h
    next m hm =>
      cases h
      exact ⟨ver, m, hver, hm, rfl⟩

lemma parse_request_ok {j : Json} {r : jsonrpc_request} (h : parse_request j = .ok r) :
    ∃ r0, from_json j = .ok r0 ∧ r = { r0 with extra := request_extra_fields j } := by
  unfold parse_request at h
  split at h
  · exact Except.noConfusion h
  next r0 h0 =>
    cases h
    exact ⟨r0, h0, rfl⟩

lemma parse_request_ok_fields {j : Json} {r : jsonrpc_request}
    (h : parse_request j = .ok r) :
    j.isObj = true ∧
    r.params = normalize_params (memberD j "params" Json.discarded) ∧
    r.id = memberD j "id" Json.discarded ∧
    r.extra = request_extra_fields j := by
  obtain ⟨r0, h0, rfl⟩ := parse_request_ok h
  obtain ⟨ver, m, hv, hm, rfl⟩ := from_json_ok h0
  exact ⟨getStrField_ok_isObj hv, rfl, rfl, rfl⟩

lemma validate_request_ok_facts {r : jsonrpc_request} (h : validate_request r = .ok ()) :
    r.jsonrpc = "2.0" ∧ r.params.isArr = true ∧ r.method ≠ "" ∧
      is_valid_request_id r.id = true := by
  unfold validate_request at h
  split_ifs at h with h1 h2 h3 h4
  simp_all

lemma validate_request_invalid_id {r : jsonrpc_request}
    (h : is_valid_request_id r.id = false) : ∃ e, validate_request r = .error e := by
  unfold validate_request
  split_ifs
  all_goals exact ⟨_, rfl⟩

lemma process_request_not_array {reg : Registry} {request extra : Json}
    (h : request.isArr = false) :
    process_request reg request extra = process_single reg request extra := by
  cases request <;> first | rfl | simp [Json.isArr] at h

lemma process_batch_items_eq (reg : Registry) (extra : Json) (l : List Json) :
    process_batch_items reg extra l =
      (l.map (batch_element_response reg extra)).filter (fun r => !r.isDiscarded) := by
  induction l with
  | nil => rfl
  | cons x rest ih =>
    by_cases hx : x.isObj = false
    · simp [process_batch_items, batch_element_response, hx, ih,
        generate_error_response, Json.isDiscarded]
    · by_cases hd : (process_single reg x extra).isDiscarded
      · simp [process_batch_items, batch_element_response, hx, hd, ih]
      · simp [process_batch_items, batch_element_response, hx, hd, ih]

/-! ### Claim C2 -/

/-- Claim C2: request validation performs its checks in the fixed source order
(version, params shape, non-empty method, id shape) with the first failure
winning; in particular a request whose `jsonrpc` differs from "2.0" and whose
id is simultaneously of invalid shape reports the `INVALID_REQUEST` version
error, not the id error. -/
theorem c2_validation_order_version_wins (r : jsonrpc_request)
    (hver : r.jsonrpc ≠ "2.0") (_hid : is_valid_request_id r.id = false) :
    validate_request r =
      .error { code := INVALID_REQUEST, message := err_not_jsonrpc_2_0_request } := by
  unfold validate_request
  simp [hver]

/-- Witness for C2 at the concrete request with version "12.0" and boolean id. -/
theorem c2_validation_order_version_wins_witness :
    ("12.0" : String) ≠ "2.0" ∧
    is_valid_request_id (Json.bool true) = false ∧
    validate_request ⟨"12.0", "m", Json.arr [], Json.bool true, Json.null⟩ =
      .error { code := INVALID_REQUEST, message := err_not_jsonrpc_2_0_request } :=
  ⟨by decide, rfl,
    c2_validation_order_version_wins ⟨"12.0", "m", Json.arr [], Json.bool true, Json.null⟩
      (by decide) rfl⟩

/-! ### Claim C3 -/

/-- Claim C3 counterexample: the arity-mismatch error message produced by the
closure of `create_closure` is "Invalid parameters passed to method" with a
capital I, not "invalid parameters passed to method" as the claim states. -/
theorem c3_counterexample :
    create_closure false 0 false [Json.num 1] =
      BindOutcome.bindError
        { code := INVALID_PARAMS, message := err_invalid_params_passed_to_method } ∧
    err_invalid_params_passed_to_method ≠ "invalid parameters passed to method" :=
  ⟨rfl, by decide⟩

/-- Claim C3 (amended): a handler declaring exactly one non-context parameter
of the generic JSON type receives the whole normalized params array unconverted
regardless of its length; any other handler with a params count that does not
match its declared arity (accounting for the context slot) yields
`INVALID_PARAMS` with message "Invalid parameters passed to method" (capital I);
in particular an arity-0 handler invoked with params `[1]` yields that error. -/
theorem c3_parameter_binding_amended :
    (∀ (hasExtra : Bool) (params : List Json),
        create_closure hasExtra (arg_pos hasExtra + 1) true params =
          BindOutcome.passthrough (Json.arr params)) ∧
    (∀ (hasExtra : Bool) (argsSize : Nat) (aj : Bool) (params : List Json),
        ¬(argsSize = arg_pos hasExtra + 1 ∧ aj = true) →
        params.length + arg_pos hasExtra ≠ argsSize →
        create_closure hasExtra argsSize aj params =
          BindOutcome.bindError
            { code := INVALID_PARAMS, message := err_invalid_params_passed_to_method }) := by
  constructor
  · intro hasExtra params
    cases hasExtra <;> rfl
  · intro hasExtra argsSize aj params hne hlen
    simp only [create_closure]
    split_ifs with hc1 hc2
    · exact absurd (by simpa [Bool.and_eq_true, beq_iff_eq] using hc1) hne
    · exact absurd (by simpa [beq_iff_eq] using hc2) hlen
    · rfl

/-- Witness for C3 at the concrete arity-0 handler invoked with params `[1]`. -/
theorem c3_parameter_binding_amended_witness :
    create_closure false 0 false [Json.num 1] =
      BindOutcome.bindError
        { code := INVALID_PARAMS, message := err_invalid_params_passed_to_method } :=
  c3_parameter_binding_amended.2 false 0 false [Json.num 1] (by decide) (by decide)

/-! ### Claim C5 -/

/-- Claim C5: a batch element that is itself an array is treated as a malformed
single request, producing exactly one `INVALID_REQUEST` error response with
null id; nested batches are never recursed into, so batching is exactly one
level deep. -/
theorem c5_nested_batch_rejected (reg : Registry) (extra : Json) (xs : List Json) :
    batch_element_response reg extra (Json.arr xs) =
      generate_error_response
        { code := INVALID_REQUEST, message := err_not_jsonrpc_2_0_request } Json.null ∧
    process_request reg (Json.arr [Json.arr xs]) extra =
      Json.arr [generate_error_response
        { code := INVALID_REQUEST, message := err_not_jsonrpc_2_0_request } Json.null] :=
  ⟨rfl, rfl⟩

/-! ### Claim C6 -/

/-- Claim C6 counterexample: the error message for an empty batch is
"Empty batch request" with a capital E, so it is not the string
"empty batch request" stated by the claim. -/
theorem c6_counterexample :
    get_error_message (process_request (fun _ => none) (Json.arr []) (Json.obj [])) ≠
      "empty batch request" := by
  decide

/-- Claim C6 (amended): processing an empty top-level array returns a single
non-array `INVALID_REQUEST` error response with message "Empty batch request"
(capital E) and null id. -/
theorem c6_empty_batch_amended (reg : Registry) (extra : Json) :
    process_request reg (Json.arr []) extra =
      generate_error_response
        { code := INVALID_REQUEST, message := err_empty_batch } Json.null ∧
    (process_request reg (Json.arr []) extra).isArr = false ∧
    get_error_code (process_request reg (Json.arr []) extra) = INVALID_REQUEST ∧
    get_error_message (process_request reg (Json.arr []) extra) = "Empty batch request" ∧
    (process_request reg (Json.arr []) extra).member "id" = some Json.null :=
  ⟨rfl, rfl, rfl, rfl, rfl⟩

/-! ### Claim C4 -/

/-- Claim C4: a non-empty batch is processed element by element through the
single-request path (non-object elements yielding the immediate
`INVALID_REQUEST` error), the non-discarded per-element responses are
collected into an array preserving the input order, and when every element is
discarded (all notifications) the whole batch result is the discarded value,
not an empty array. -/
theorem c4_batch_aggregation (reg : Registry) (extra : Json) (elems : List Json)
    (h : elems ≠ []) :
    process_request reg (Json.arr elems) extra =
      (if ((elems.map (batch_element_response reg extra)).filter
            (fun r => !r.isDiscarded)).isEmpty
       then Json.discarded
       else Json.arr ((elems.map (batch_element_response reg extra)).filter
            (fun r => !r.isDiscarded))) := by
  have he : elems.isEmpty = false := by
    cases elems
    · exact absurd rfl h
    · rfl
  show process_batch_request reg elems extra = _
  unfold process_batch_request
  rw [he, process_batch_items_eq]
  simp

/-- Witness for C4: a batch of two notifications (both lacking `id`) collapses
to the discarded value, not an empty array. -/
theorem c4_batch_aggregation_witness :
    process_request (fun _ => none)
      (Json.arr [Json.obj [("jsonrpc", Json.str "2.0"), ("method", Json.str "notification")],
                 Json.obj [("jsonrpc", Json.str "2.0"), ("method", Json.str "s_notification")]])
      (Json.obj []) = Json.discarded := by
  rw [c4_batch_aggregation (fun _ => none) (Json.obj [])
    [Json.obj [("jsonrpc", Json.str "2.0"), ("method", Json.str "notification")],
     Json.obj [("jsonrpc", Json.str "2.0"), ("method", Json.str "s_notification")]]
    (by simp)]
  rfl

/-! ### Claim C1 -/

/-- Claim C1 counterexample: the id-less request with version "12.0" and empty
method is a notification (no `id` member), yet `process_request` does not
return the discarded value: it produces an `INVALID_REQUEST` error response
with null id, because the failure happens during validation, before the
request could be recognized as a notification. -/
theorem c1_counterexample :
    (Json.obj [("jsonrpc", Json.str "12.0"), ("method", Json.str "")]).hasKey "id" = false ∧
    process_request (fun _ => none)
        (Json.obj [("jsonrpc", Json.str "12.0"), ("method", Json.str "")]) (Json.obj []) =
      generate_error_response
        { code := INVALID_REQUEST, message := err_not_jsonrpc_2_0_request } Json.null ∧
    process_request (fun _ => none)
        (Json.obj [("jsonrpc", Json.str "12.0"), ("method", Json.str "")]) (Json.obj []) ≠
      Json.discarded := by
  refine ⟨rfl, rfl, ?_⟩
  intro hcontra
  exact Json.noConfusion hcontra

/-- Claim C1 (amended): for a single request object lacking an `id` member,
`process_request` returns the discarded value whenever parsing and validation
succeed — whatever the method lookup, binding, or handler invocation does —
but a parse or validation failure of such a request is not suppressed: it
produces an error response keyed to the null id. -/
theorem c1_notification_amended (reg : Registry) (request extra : Json)
    (harr : request.isArr = false) (hid : request.hasKey "id" = false) :
    (∀ req, parse_request request = .ok req → validate_request req = .ok () →
        process_request reg request extra = Json.discarded) ∧
    (∀ e, parse_request request = .error e →
        process_request reg request extra = generate_error_response e Json.null) ∧
    (∀ req e, parse_request request = .ok req → validate_request req = .error e →
        process_request reg request extra = generate_error_response e Json.null) := by
  have hmem : request.member "id" = none := hasKey_false_member hid
  have hrid : get_request_id request = Json.null := get_request_id_of_member_none hmem
  rw [process_request_not_array harr]
  refine ⟨?_, ?_, ?_⟩
  · intro req hp hv
    have hreqid : req.id = Json.discarded := by
      obtain ⟨-, -, hidq, -⟩ := parse_request_ok_fields hp
      rw [hidq]
      unfold memberD
      rw [hmem]
    unfold process_single
    rw [hrid]
    simp only [hp, hv]
    cases hinv : invoke reg req.method req.params (make_extra_data extra req.extra) with
    | ok res => simp [hreqid, Json.isDiscarded]
    | error f =>
      cases f with
      | rpc e => simp [hreqid, Json.isDiscarded]
      | native w => simp [hreqid, Json.isDiscarded]
  · intro e hp
    unfold process_single
    rw [hrid]
    simp [hp, Json.isDiscarded]
  · intro req e hp hv
    unfold process_single
    rw [hrid]
    simp [hp, hv, Json.isDiscarded]

/-- Witness for C1 at a concrete valid notification: the request
`jsonrpc 2.0, method notification` without `id` yields the discarded value. -/
theorem c1_notification_amended_witness :
    process_request (fun _ => none)
      (Json.obj [("jsonrpc", Json.str "2.0"), ("method", Json.str "notification")])
      (Json.obj []) = Json.discarded :=
  (c1_notification_amended (fun _ => none)
      (Json.obj [("jsonrpc", Json.str "2.0"), ("method", Json.str "notification")])
      (Json.obj []) rfl rfl).1
    ⟨"2.0", "notification", Json.arr [], Json.discarded, Json.obj []⟩ rfl rfl

/-! ### Claim C7 -/

/-- Claim C7: a request that parses and validates but names a method with no
registered handler yields an error response with code `METHOD_NOT_FOUND`
(-32601) and message "Method not found", whose id echoes the request's id. -/
theorem c7_method_not_found_response (reg : Registry) (request extra : Json)
    (req : jsonrpc_request)
    (hp : parse_request request = .ok req) (hv : validate_request req = .ok ())
    (hid : req.id.isDiscarded = false) (hm : reg req.method = none) :
    process_request reg request extra =
      generate_error_response
        { code := METHOD_NOT_FOUND, message := err_method_not_found } req.id ∧
    req.id = get_request_id request := by
  obtain ⟨hobj, -, hidq, -⟩ := parse_request_ok_fields hp
  have hvalid := (validate_request_ok_facts hv).2.2.2
  have hrid : get_request_id request = req.id := by
    cases hm2 : request.member "id" with
    | none =>
      rw [hidq] at hid
      unfold memberD at hid
      rw [hm2] at hid
      simp [Json.isDiscarded] at hid
    | some v =>
      have hv2 : req.id = v := by
        rw [hidq]
        unfold memberD
        rw [hm2]
      rw [hv2]
      exact get_request_id_of_valid hm2 (by rwa [hv2] at hvalid)
  constructor
  · rw [process_request_not_array (isObj_not_isArr hobj)]
    unfold process_single
    rw [hrid]
    simp only [hp, hv]
    simp only [invoke, hm]
    simp [hid]
  · exact hrid.symm

/-- Witness for C7: calling the unregistered method "foobar" with id "1" on an
empty registry returns the method-not-found error response echoing id "1". -/
theorem c7_method_not_found_response_witness :
    process_request (fun _ => none)
      (Json.obj [("jsonrpc", Json.str "2.0"), ("method", Json.str "foobar"),
                 ("id", Json.str "1")])
      (Json.obj []) =
    generate_error_response
      { code := METHOD_NOT_FOUND, message := err_method_not_found } (Json.str "1") :=
  (c7_method_not_found_response (fun _ => none)
    (Json.obj [("jsonrpc", Json.str "2.0"), ("method", Json.str "foobar"),
               ("id", Json.str "1")])
    (Json.obj [])
    ⟨"2.0", "foobar", Json.arr [], Json.str "1", Json.obj []⟩ rfl rfl rfl rfl).1

/-! ### Claim C8 -/

/-- Claim C8: when the handler of a non-notification request fails with a
native (untyped) exception, the dispatcher catches it and returns an error
response with code `INTERNAL_ERROR` (-32603) whose message is the native
exception's description; the embedding of `process_request` is a total
function, so no failure propagates out of it. -/
theorem c8_internal_error_from_native (reg : Registry) (request extra : Json)
    (req : jsonrpc_request) (f : HandlerFun) (w : String)
    (hp : parse_request request = .ok req) (hv : validate_request req = .ok ())
    (hid : req.id.isDiscarded = false) (hreg : reg req.method = some f)
    (hf : f (make_extra_data extra req.extra) req.params = HandlerOutcome.nativeFailure w) :
    process_request reg request extra =
      generate_error_response { code := INTERNAL_ERROR, message := w } req.id := by
  obtain ⟨hobj, -, -, -⟩ := parse_request_ok_fields hp
  rw [process_request_not_array (isObj_not_isArr hobj)]
  unfold process_single
  simp only [hp, hv]
  simp only [invoke, hreg, hf]
  simp [hid]

/-- Witness for C8: a handler that throws a native exception with text "test"
yields the internal-error response with message "test" and the request id. -/
theorem c8_internal_error_from_native_witness :
    process_request
      (fun m => if m = "throwing"
        then some (fun _ _ => HandlerOutcome.nativeFailure "test") else none)
      (Json.obj [("jsonrpc", Json.str "2.0"), ("method", Json.str "throwing"),
                 ("id", Json.num 1)])
      (Json.obj []) =
    generate_error_response { code := INTERNAL_ERROR, message := "test" } (Json.num 1) :=
  c8_internal_error_from_native
    (fun m => if m = "throwing"
      then some (fun _ _ => HandlerOutcome.nativeFailure "test") else none)
    (Json.obj [("jsonrpc", Json.str "2.0"), ("method", Json.str "throwing"),
               ("id", Json.num 1)])
    (Json.obj [])
    ⟨"2.0", "throwing", Json.arr [], Json.num 1, Json.obj []⟩
    (fun _ _ => HandlerOutcome.nativeFailure "test") "test" rfl rfl rfl rfl rfl

/-! ### Claim C9 -/

/-- Claim C9: every successfully constructed `jsonrpc_request` has an array
`params`: an absent `params` member becomes the empty array, an object becomes
a one-element array wrapping it, and an array is kept unchanged. -/
theorem c9_params_always_array (request : Json) (req : jsonrpc_request)
    (h : jsonrpc_request.from_json request = .ok req) :
    req.params.isArr = true ∧
    (request.member "params" = none → req.params = Json.arr []) ∧
    (∀ ms, request.member "params" = some (Json.obj ms) →
        req.params = Json.arr [Json.obj ms]) ∧
    (∀ xs, request.member "params" = some (Json.arr xs) →
        req.params = Json.arr xs) := by
  unfold jsonrpc_request.from_json at h
  split at h
  · exact Except.noConfusion h
  next req0 h0 =>
    split_ifs at h with h1 h2 h3 h4
    cases h
    obtain ⟨ver, m, -, -, rfl⟩ := from_json_ok h0
    refine ⟨by simpa using h2, ?_, ?_, ?_⟩
    · intro hm2
      simp [normalize_params, memberD, hm2, Json.isDiscarded]
    · intro ms hm2
      simp [normalize_params, memberD, hm2, Json.isDiscarded]
    · intro xs hm2
      simp [normalize_params, memberD, hm2, Json.isDiscarded]

/-- Witness for C9: the subtract request with named (object) params constructs
successfully and its params are wrapped into a one-element array. -/
theorem c9_params_always_array_witness :
    jsonrpc_request.from_json
        (Json.obj [("jsonrpc", Json.str "2.0"), ("method", Json.str "subtract"),
                   ("params", Json.obj [("minuend", Json.num 42), ("subtrahend", Json.num 23)]),
                   ("id", Json.num 1)]) =
      .ok ⟨"2.0", "subtract",
           Json.arr [Json.obj [("minuend", Json.num 42), ("subtrahend", Json.num 23)]],
           Json.num 1, Json.obj []⟩ ∧
    (⟨"2.0", "subtract",
      Json.arr [Json.obj [("minuend", Json.num 42), ("subtrahend", Json.num 23)]],
      Json.num 1, Json.obj []⟩ : jsonrpc_request).params.isArr = true :=
  ⟨rfl,
   (c9_params_always_array
     (Json.obj [("jsonrpc", Json.str "2.0"), ("method", Json.str "subtract"),
                ("params", Json.obj [("minuend", Json.num 42), ("subtrahend", Json.num 23)]),
                ("id", Json.num 1)])
     ⟨"2.0", "subtract",
      Json.arr [Json.obj [("minuend", Json.num 42), ("subtrahend", Json.num 23)]],
      Json.num 1, Json.obj []⟩ rfl).1⟩

/-! ### Claim C10 -/

/-- Claim C10 counterexample: a request whose `id` is the boolean `true` (an
invalid id shape) and whose `params` is a scalar produces an `INVALID_PARAMS`
(-32602) error response, not an `INVALID_REQUEST` one, because the params-shape
check runs before the id-shape check. -/
theorem c10_counterexample :
    is_valid_request_id (Json.bool true) = false ∧
    get_error_code (process_request (fun _ => none)
        (Json.obj [("jsonrpc", Json.str "2.0"), ("method", Json.str "m"),
                   ("params", Json.num 0), ("id", Json.bool true)])
        (Json.obj [])) = INVALID_PARAMS ∧
    INVALID_PARAMS ≠ INVALID_REQUEST :=
  ⟨rfl, rfl, by decide⟩

/-- Claim C10 (amended): a single request whose `id` member is present but of
invalid shape always yields an error response whose id is null — it is never
treated as a notification and the malformed id value is never echoed back —
and the error is the `INVALID_REQUEST` bad-id error whenever the earlier
checks (version, params shape, non-empty method) pass. -/
theorem c10_invalid_id_amended (reg : Registry) (request extra : Json) (v : Json)
    (harr : request.isArr = false) (hm : request.member "id" = some v)
    (hv : is_valid_request_id v = false) :
    (∃ e : RpcException,
        process_request reg request extra = generate_error_response e Json.null) ∧
    process_request reg request extra ≠ Json.discarded ∧
    (∀ req, parse_request request = .ok req → req.jsonrpc = "2.0" →
        req.params.isArr = true → req.method ≠ "" →
        process_request reg request extra =
          generate_error_response
            { code := INVALID_REQUEST, message := err_bad_id_type } Json.null) := by
  have hrid : get_request_id request = Json.null := get_request_id_of_invalid hm hv
  rw [process_request_not_array harr]
  have hmain : ∃ e : RpcException,
      process_single reg request extra = generate_error_response e Json.null := by
    cases hp : parse_request request with
    | error e =>
      refine ⟨e, ?_⟩
      unfold process_single
      rw [hrid]
      simp [hp, Json.isDiscarded]
    | ok req =>
      have hidq : req.id = v := by
        obtain ⟨-, -, hq, -⟩ := parse_request_ok_fields hp
        rw [hq]
        unfold memberD
        rw [hm]
      obtain ⟨e, he⟩ := validate_request_invalid_id (r := req) (by rw [hidq]; exact hv)
      refine ⟨e, ?_⟩
      unfold process_single
      rw [hrid]
      simp [hp, he, Json.isDiscarded]
  refine ⟨hmain, ?_, ?_⟩
  · obtain ⟨e, he⟩ := hmain
    rw [he]
    exact generate_error_response_ne_discarded e Json.null
  · intro req hp h1 h2 h3
    have hidq : req.id = v := by
      obtain ⟨-, -, hq, -⟩ := parse_request_ok_fields hp
      rw [hq]
      unfold memberD
      rw [hm]
    have hval : validate_request req =
        .error { code := INVALID_REQUEST, message := err_bad_id_type } := by
      unfold validate_request
      simp [h1, h2, h3, hidq, hv]
    unfold process_single
    rw [hrid]
    simp [hp, hval, Json.isDiscarded]

/-- Witness for C10 at the concrete request with boolean id and otherwise valid
shape: the response is the bad-id `INVALID_REQUEST` error with null id. -/
theorem c10_invalid_id_amended_witness :
    process_request (fun _ => none)
      (Json.obj [("jsonrpc", Json.str "2.0"), ("method", Json.str "method"),
                 ("id", Json.bool true)])
      (Json.obj []) =
    generate_error_response
      { code := INVALID_REQUEST, message := err_bad_id_type } Json.null :=
  (c10_invalid_id_amended (fun _ => none)
    (Json.obj [("jsonrpc", Json.str "2.0"), ("method", Json.str "method"),
               ("id", Json.bool true)])
    (Json.obj []) (Json.bool true) rfl rfl rfl).2.2
    ⟨"2.0", "method", Json.arr [], Json.bool true, Json.obj []⟩ rfl rfl rfl (by decide)

end JsonRpc
